import Mathlib

/-!
# Lineage properties: stack-to-heap promotion, handles and the registry counter

A shallow embedding of `flow/LineageProperties.h`, `flow/LineageProperties.cpp` and
`fdbserver/RoleLineage.actor.h`.

* Machine integers are natural numbers; an increment is reduced modulo the width of
  its C++ type (`unsigned` and `uint32_t`: 32 bits, `uint64_t`: 64 bits).
* A pointer is an address (`Nat`), the null pointer is `none`.
* The calls a destructor makes on the process-wide `lineageCollection()` and the
  allocation it performs are recorded, in program order, as a list of `Effect`s.
  The bodies of `LineageCollection::move` and `LineageCollection::remove` are not
  part of the sources, so a call to them is recorded, not interpreted.
* `std::mutex mapMutex` carries no data and is left out of the registry state.
* An actor is followed from its call to its result: the body it waits on yields a
  value or the error of its future, together with the lineage chain it leaves.
-/

namespace Lineage

/-! ## Widths of the machine integers -/

/-- Number of values of `unsigned` (the type of `refCount`). -/
def UNSIGNED_MOD : Nat := 4294967296

/-- Number of values of `uint32_t` (the type of `id` and of the declared result of `add`). -/
def UINT32_MOD : Nat := 4294967296

/-- Number of values of `uint64_t` (the type of `LineageCollection::counter`). -/
def UINT64_MOD : Nat := 18446744073709551616

/-! ## Data model -/

/-- The struct `LineagePropertiesBase`: `std::atomic<bool> onHeap`,
`std::atomic<unsigned> refCount`, `uint32_t id`. -/
structure LineagePropertiesBase where
  onHeap : Bool
  refCount : Nat
  id : Nat
  deriving DecidableEq, Repr

/-- The struct `LineageProperties<Properties...>`: the base sub-object followed by
`std::tuple<Properties...> members`; `M` stands for the tuple type. -/
structure LineageProperties (M : Type) extends LineagePropertiesBase where
  members : M
  deriving DecidableEq, Repr

/-- The class `LineageCollection`: `std::atomic<bool> sampling`, `uint64_t counter`
(the class declares no map member). -/
structure LineageCollection where
  sampling : Bool
  counter : Nat
  deriving DecidableEq, Repr

/-- The struct `LineagePropertiesPtr`: `LineagePropertiesBase* ptr = nullptr`,
`uint32_t id = 0`. -/
structure LineagePropertiesPtr where
  ptr : Option Nat
  id : Nat
  deriving DecidableEq, Repr

/-- What a destructor of a lineage node does to the outside world: a heap allocation
(`new`), or a call of one of the three public members of `LineageCollection`. -/
inductive Effect (M : Type) where
  | alloc (n : LineageProperties M)
  | add (lineageProperties : LineageProperties M)
  | move (idx : Nat) (properties : LineageProperties M)
  | remove (id : Nat)
  deriving DecidableEq, Repr

/-- The effect is a heap allocation. -/
def Effect.isAlloc {M : Type} : Effect M → Bool
  | Effect.alloc _ => true
  | _ => false

/-- The effect is a call of `LineageCollection::add`. -/
def Effect.isAdd {M : Type} : Effect M → Bool
  | Effect.add _ => true
  | _ => false

/-- The effect is a call of `LineageCollection::move`. -/
def Effect.isMove {M : Type} : Effect M → Bool
  | Effect.move _ _ => true
  | _ => false

/-- The effect is a call of `LineageCollection::remove`. -/
def Effect.isRemove {M : Type} : Effect M → Bool
  | Effect.remove _ => true
  | _ => false

/-- The effect is a call on the registry (`add`, `move` or `remove`). -/
def Effect.isRegistryOp {M : Type} (e : Effect M) : Bool :=
  e.isAdd || e.isMove || e.isRemove

/-! ## Operations -/

/-- The copy `LineageProperties<Properties...>{*this}`: every member of the new
object is initialised from the member of the same name of the source object. For `id`
and `members` that is a plain copy. For the `std::atomic` members `onHeap` and
`refCount` the implicit copy constructor is deleted, so the sources themselves fix no
value of the new object's `onHeap` and `refCount`; the memberwise reading is taken
for them here. -/
def LineageProperties.copy {M : Type} (self : LineageProperties M) : LineageProperties M :=
  { onHeap := self.onHeap, refCount := self.refCount, id := self.id, members := self.members }

/-- The destructor `LineageProperties::~LineageProperties`:
```
if (onHeap) { return; }
if (refCount.load() > 0) {
    auto n = new LineageProperties<Properties...>{*this};
    lineageCollection().move(id, n);
} else {
    lineageCollection().remove(id);
}
```
The destructors of the bases have empty bodies. -/
def LineageProperties.destructor {M : Type} (self : LineageProperties M) : List (Effect M) :=
  if self.onHeap then []
  else if self.refCount > 0 then
    let n := self.copy
    [Effect.alloc n, Effect.move self.id n]
  else
    [Effect.remove self.id]

/-- The constructor `LineagePropertiesPtr::LineagePropertiesPtr(LineagePropertiesBase* ptr)`:
```
    : ptr(ptr->onHeap ? ptr : nullptr), id(ptr->id) {
    ++ptr->refCount;
}
```
`addr` is the pointer passed in and `target` the object it points to. The result is
the handle and the pointed-to object after the call. -/
def LineagePropertiesPtr.ctor (addr : Nat) (target : LineagePropertiesBase) :
    LineagePropertiesPtr × LineagePropertiesBase :=
  ({ ptr := if target.onHeap then some addr else none, id := target.id },
   { target with refCount := (target.refCount + 1) % UNSIGNED_MOD })

/-- The destructor of `LineagePropertiesPtr`. The struct declares none, so it is the
implicit one: it destroys the members `ptr` (a raw pointer) and `id` (an integer),
which has no effect, and it does not access the object the handle was made from.
`target` is that object; the result is the object once the handle is gone. -/
def LineagePropertiesPtr.destructor (_self : LineagePropertiesPtr)
    (target : LineagePropertiesBase) : LineagePropertiesBase :=
  target

/-- The member `LineageCollection::add`:
```
auto res = ++counter;
std::unique_lock<std::mutex> _{mapMutex};
return res;
```
`counter` is a `uint64_t`. The class declares the result of `add` as `uint32_t`, the
type of the `id` of a node and of a handle (the definition in the `.cpp` file spells
the result type `uint64_t`); the id handed back is `res` reduced to 32 bits. The
result is the returned id, the registry after the call and the node after the call. -/
def LineageCollection.add (self : LineageCollection) (lineageProperties : LineagePropertiesBase) :
    Nat × LineageCollection × LineagePropertiesBase :=
  let res := (self.counter + 1) % UINT64_MOD
  (res % UINT32_MOD, { self with counter := res }, lineageProperties)

/-- The ids returned by a sequence of `add` calls on one registry, one call per node
of the list, in order. -/
def LineageCollection.addAll (self : LineageCollection) : List LineagePropertiesBase → List Nat
  | [] => []
  | n :: ns => (self.add n).1 :: LineageCollection.addAll (self.add n).2.1 ns

/-- The implicit default constructor of `LineagePropertiesBase`; the struct declares
no constructor. `onHeap` has the default member initialiser `= false`. `refCount` and
`id` have no initialiser: they are default-initialised, which for
`std::atomic<unsigned>` (its default constructor initialises nothing before C++20) and
for `uint32_t` leaves the value the storage happens to hold. `storage` is the content
of the storage the node is constructed in. -/
def LineagePropertiesBase.ctor (storage : LineagePropertiesBase) : LineagePropertiesBase :=
  { onHeap := false, refCount := storage.refCount, id := storage.id }

/-- The node after `LineagePropertiesPtr(&node)` for a node of the derived type
`LineageProperties<Properties...>`: the constructor receives a pointer to the base
sub-object, so the base is what the constructor leaves and `members` is not accessed. -/
def LineageProperties.afterCapture {M : Type} (addr : Nat) (self : LineageProperties M) :
    LineageProperties M :=
  { toLineagePropertiesBase := (LineagePropertiesPtr.ctor addr self.toLineagePropertiesBase).2,
    members := self.members }

/-- Capturing a handle on a node in a process whose registry `lineageCollection()` is
`collection`: the handle is made by the constructor of `LineagePropertiesPtr`, which
does not call `lineageCollection()`; `sampling` is a private member that no member
function reads. The result is the handle, the registry and the node after the call. -/
def LineagePropertiesPtr.capture (collection : LineageCollection) (addr : Nat)
    (target : LineagePropertiesBase) :
    LineagePropertiesPtr × LineageCollection × LineagePropertiesBase :=
  ((LineagePropertiesPtr.ctor addr target).1, collection,
   (LineagePropertiesPtr.ctor addr target).2)

/-! ## Role lineage -/

/-- Modelled from the spec: the enumeration `ProcessClass::ClusterRole` is declared in
`fdbrpc/Locality.h`, which is not among the sources. The spec names the roles
`StorageServer` and `Coordinator`; `NoRole` is the sentinel for an unset role. -/
inductive ClusterRole where
  | NoRole
  | StorageServer
  | Coordinator
  deriving DecidableEq, Repr

/-- The fields of the bag `RoleLineage`: `ProcessClass::ClusterRole role =
ProcessClass::NoRole`. (`static StringRef name` belongs to the type, not to a bag; the
base `LineageProperties<RoleLineage>` is the node the bag lives in.) -/
structure RoleLineage where
  role : ClusterRole
  deriving DecidableEq, Repr

/-- A member pointer of type `ProcessClass::ClusterRole RoleLineage::*`. The struct has
one member of that type, so `&RoleLineage::role` is the only value. -/
inductive RoleLineageMember where
  | role
  deriving DecidableEq, Repr

/-- The default constructor of `RoleLineage`: the default member initialiser sets
`role` to `ProcessClass::NoRole`. -/
def RoleLineage.ctor : RoleLineage :=
  { role := ClusterRole.NoRole }

/-- The expression `this->*member`. -/
def RoleLineage.deref (self : RoleLineage) : RoleLineageMember → ClusterRole
  | RoleLineageMember.role => self.role

/-- The assignment `this->*member = value`. -/
def RoleLineage.assign (self : RoleLineage) : RoleLineageMember → ClusterRole → RoleLineage
  | RoleLineageMember.role, value => { self with role := value }

/-- The member `RoleLineage::isSet`:
```
return this->*member != ProcessClass::NoRole;
```
-/
def RoleLineage.isSet (self : RoleLineage) (member : RoleLineageMember) : Bool :=
  self.deref member != ClusterRole.NoRole

/-- Modelled from the spec: `currentLineage->makeRoot()` is declared in `flow/flow.h`,
which is not among the sources. The spec: "`makeRoot()` discards any prior chain for
the current task and starts a fresh root Lineage Node". The chain is the task-local
list of active nodes, most recent first. -/
def makeRoot (_chain : List RoleLineage) : List RoleLineage :=
  [RoleLineage.ctor]

/-- Modelled from the spec: `currentLineage->modify(member)` is declared in
`flow/flow.h`, which is not among the sources. The spec: "field-level mutation by
stable field identifier" and "field mutation on the current node affects only that
task's context". `currentLineage->modify(member) = value` assigns `value` to the field
`member` of the current node, the head of the chain. -/
def modify (chain : List RoleLineage) (member : RoleLineageMember) (value : ClusterRole) :
    List RoleLineage :=
  match chain with
  | [] => []
  | current :: ancestors => current.assign member value :: ancestors

/-- The actor `runInRole`:
```
currentLineage->makeRoot();
currentLineage->modify(&RoleLineage::role) = role;
decltype(std::declval<Fun>()()) res = wait(fun());
return res;
```
`body` stands for `fun`: started on the task's chain, it yields the outcome of the
future it returns (a value, or an error, which `wait` throws on) and the chain it
leaves. `currentLineage` is the task's chain when `runInRole` is called. -/
def runInRole {α ε : Type} (body : List RoleLineage → Except ε α × List RoleLineage)
    (role : ClusterRole) (currentLineage : List RoleLineage) :
    Except ε α × List RoleLineage :=
  let rooted := makeRoot currentLineage
  let tagged := modify rooted RoleLineageMember.role role
  let outcome := body tagged
  match outcome.1 with
  | Except.ok res => (Except.ok res, outcome.2)
  | Except.error e => (Except.error e, outcome.2)

/-! ## Sample objects -/

/-- A stack-resident node that two handles have captured. -/
def observedNode : LineageProperties Nat :=
  { onHeap := false, refCount := 2, id := 7, members := 3 }

/-- A stack-resident node that no handle has captured. -/
def unobservedNode : LineageProperties Nat :=
  { onHeap := false, refCount := 0, id := 7, members := 3 }

/-- A node whose `onHeap` flag is set. -/
def heapNode : LineageProperties Nat :=
  { onHeap := true, refCount := 2, id := 7, members := 3 }

/-- A node whose reference count has the largest value of `unsigned`. -/
def saturatedNode : LineagePropertiesBase :=
  { onHeap := false, refCount := 4294967295, id := 7 }

/-- A registry that has not handed out any id. -/
def freshCollection : LineageCollection :=
  { sampling := false, counter := 0 }

/-- A node whose `onHeap` flag is set and that no handle references. -/
def idleHeapNode : LineageProperties Nat :=
  { onHeap := true, refCount := 0, id := 7, members := 3 }

/-- Storage that holds leftover values before a node is constructed in it. -/
def usedStorage : LineagePropertiesBase :=
  { onHeap := true, refCount := 5, id := 9 }

/-- A body that reports the role of the current node and leaves the chain as it is. -/
def reportRole (chain : List RoleLineage) : Except String ClusterRole × List RoleLineage :=
  match chain with
  | [] => (Except.error "no lineage", chain)
  | current :: _ => (Except.ok current.role, chain)

/-! ## The destructor of a lineage node -/

/-- C1. Promotion: the destructor of a stack-resident node with a positive reference
count allocates one node `n` and then calls `move(id, n)` with the node's own id, and
does nothing else (one `move`, no `remove`); `n` has the id and the members of the node
being destroyed. -/
theorem destructor_promotes {M : Type} (self : LineageProperties M)
    (hStack : self.onHeap = false) (hRef : 0 < self.refCount) :
    ∃ n : LineageProperties M,
      self.destructor = [Effect.alloc n, Effect.move self.id n] ∧
      self.destructor.countP Effect.isMove = 1 ∧
      self.destructor.countP Effect.isRemove = 0 ∧
      n.id = self.id ∧ n.members = self.members := by
  refine ⟨self.copy, ?_, ?_, ?_, rfl, rfl⟩ <;>
    simp [LineageProperties.destructor, hStack, hRef, Effect.isMove, Effect.isRemove]

/-- Witness of C1 at `observedNode`. -/
theorem destructor_promotes_witness :
    observedNode.onHeap = false ∧ 0 < observedNode.refCount ∧
    ∃ n : LineageProperties Nat,
      observedNode.destructor = [Effect.alloc n, Effect.move observedNode.id n] ∧
      observedNode.destructor.countP Effect.isMove = 1 ∧
      observedNode.destructor.countP Effect.isRemove = 0 ∧
      n.id = observedNode.id ∧ n.members = observedNode.members :=
  ⟨rfl, by decide, destructor_promotes observedNode rfl (by decide)⟩

/-- C3, as stated, fails at `unobservedNode` (stack-resident, never captured): its
destructor does perform a Registry operation, so it is not true that every effect of
the destructor is neither an allocation nor a Registry operation. -/
theorem destructor_zero_overhead_counterexample :
    ¬ (∀ e ∈ unobservedNode.destructor, e.isAlloc = false ∧ e.isRegistryOp = false) := by
  decide

/-- C3, amended. The destructor of a stack-resident node with reference count 0
performs no allocation and calls neither `add` nor `move`; the Registry operations it
performs are exactly one `remove` of the node's own id. -/
theorem destructor_unobserved_no_alloc_add_move {M : Type} (self : LineageProperties M)
    (hStack : self.onHeap = false) (hRef : self.refCount = 0) :
    (∀ e ∈ self.destructor, e.isAlloc = false ∧ e.isAdd = false ∧ e.isMove = false) ∧
    self.destructor.filter Effect.isRegistryOp = [Effect.remove self.id] := by
  simp [LineageProperties.destructor, hStack, hRef, Effect.isAlloc, Effect.isAdd,
    Effect.isMove, Effect.isRemove, Effect.isRegistryOp]

/-- Witness of the amended C3 at `unobservedNode`. -/
theorem destructor_unobserved_no_alloc_add_move_witness :
    unobservedNode.onHeap = false ∧ unobservedNode.refCount = 0 ∧
    (∀ e ∈ unobservedNode.destructor,
      e.isAlloc = false ∧ e.isAdd = false ∧ e.isMove = false) ∧
    unobservedNode.destructor.filter Effect.isRegistryOp =
      [Effect.remove unobservedNode.id] :=
  ⟨rfl, rfl, destructor_unobserved_no_alloc_add_move unobservedNode rfl rfl⟩

/-- C4. The destructor of a stack-resident node with reference count 0 does one thing
only: it calls `remove(id)` with the node's own id. It issues one `remove`, no `move`,
and allocates nothing. -/
theorem destructor_unobserved_removes {M : Type} (self : LineageProperties M)
    (hStack : self.onHeap = false) (hRef : self.refCount = 0) :
    self.destructor = [Effect.remove self.id] ∧
    self.destructor.countP Effect.isRemove = 1 ∧
    self.destructor.countP Effect.isMove = 0 ∧
    self.destructor.countP Effect.isAlloc = 0 := by
  simp [LineageProperties.destructor, hStack, hRef, Effect.isAlloc, Effect.isMove,
    Effect.isRemove]

/-- Witness of C4 at `unobservedNode`. -/
theorem destructor_unobserved_removes_witness :
    unobservedNode.onHeap = false ∧ unobservedNode.refCount = 0 ∧
    unobservedNode.destructor = [Effect.remove 7] ∧
    unobservedNode.destructor.countP Effect.isRemove = 1 ∧
    unobservedNode.destructor.countP Effect.isMove = 0 ∧
    unobservedNode.destructor.countP Effect.isAlloc = 0 :=
  ⟨rfl, rfl, destructor_unobserved_removes unobservedNode rfl rfl⟩

/-- C10. The destructor of a node whose `onHeap` flag is true has no effect at all,
whatever the reference count: no allocation, no `move`, no `remove`. -/
theorem destructor_onHeap_noop {M : Type} (self : LineageProperties M)
    (hHeap : self.onHeap = true) :
    self.destructor = [] ∧
    (∀ e ∈ self.destructor, e.isAlloc = false ∧ e.isMove = false ∧ e.isRemove = false) := by
  simp [LineageProperties.destructor, hHeap]

/-- Witness of C10 at `heapNode` (reference count 2). -/
theorem destructor_onHeap_noop_witness :
    heapNode.onHeap = true ∧ heapNode.destructor = [] ∧
    (∀ e ∈ heapNode.destructor,
      e.isAlloc = false ∧ e.isMove = false ∧ e.isRemove = false) :=
  ⟨rfl, destructor_onHeap_noop heapNode rfl⟩

/-! ## Handles -/

/-- C5, as stated, fails at `saturatedNode`: its reference count is the largest value
of `unsigned`, and constructing a handle from it wraps the count to 0 instead of making
it one larger. -/
theorem ctor_refCount_counterexample :
    (LineagePropertiesPtr.ctor 0 saturatedNode).2.refCount ≠ saturatedNode.refCount + 1 ∧
    (LineagePropertiesPtr.ctor 0 saturatedNode).2.refCount = 0 := by
  decide

/-- C5, amended. Constructing a handle from a node whose reference count is below the
largest value of `unsigned` makes the count exactly one larger. -/
theorem ctor_increments_refCount (addr : Nat) (target : LineagePropertiesBase)
    (hRoom : target.refCount + 1 < UNSIGNED_MOD) :
    (LineagePropertiesPtr.ctor addr target).2.refCount = target.refCount + 1 := by
  simp only [LineagePropertiesPtr.ctor]
  exact Nat.mod_eq_of_lt hRoom

/-- Witness of the amended C5 at the base of `observedNode`. -/
theorem ctor_increments_refCount_witness :
    observedNode.refCount + 1 < UNSIGNED_MOD ∧
    (LineagePropertiesPtr.ctor 64 observedNode.toLineagePropertiesBase).2.refCount =
      observedNode.refCount + 1 :=
  ⟨by decide, ctor_increments_refCount 64 observedNode.toLineagePropertiesBase (by decide)⟩

/-- C6. The handle constructed from a node stores the node's id, whatever the node's
`onHeap` flag. -/
theorem ctor_stores_id (addr : Nat) (target : LineagePropertiesBase) :
    (LineagePropertiesPtr.ctor addr target).1.id = target.id := by
  rfl

/-- C7, as stated, fails at the base of `unobservedNode`: capturing a handle and then
destroying it leaves the reference count at 1, not at the 0 it had before. -/
theorem capture_destroy_counterexample :
    (LineagePropertiesPtr.destructor
        (LineagePropertiesPtr.ctor 64 unobservedNode.toLineagePropertiesBase).1
        (LineagePropertiesPtr.ctor 64 unobservedNode.toLineagePropertiesBase).2).refCount
      ≠ unobservedNode.refCount := by
  decide

/-- C7, amended. Destroying a handle leaves the node it was made from as it is, so
capturing a handle and then destroying it leaves the reference count at the value the
capture gave it, the previous count plus one reduced to the width of `unsigned`. -/
theorem capture_destroy_keeps_increment (addr : Nat) (target : LineagePropertiesBase) :
    (∀ h : LineagePropertiesPtr, LineagePropertiesPtr.destructor h target = target) ∧
    (LineagePropertiesPtr.destructor
        (LineagePropertiesPtr.ctor addr target).1
        (LineagePropertiesPtr.ctor addr target).2).refCount
      = (target.refCount + 1) % UNSIGNED_MOD := by
  exact ⟨fun _ => rfl, rfl⟩

/-! ## The registry counter -/

/-- The id returned by the call at position `i` of a sequence of `add` calls: the
counter before the sequence plus `i + 1`, reduced to 64 and then to 32 bits. -/
theorem addAll_getElem? (c : LineageCollection) (ns : List LineagePropertiesBase) (i : Nat)
    (h : i < ns.length) :
    (c.addAll ns)[i]? = some ((c.counter + i + 1) % UINT64_MOD % UINT32_MOD) := by
  induction ns generalizing c i with
  | nil => simp at h
  | cons n ns ih =>
    cases i with
    | zero => simp [LineageCollection.addAll, LineageCollection.add]
    | succ k =>
      have hk : k < ns.length := by simpa using h
      simp only [LineageCollection.addAll, List.getElem?_cons_succ]
      rw [ih _ k hk]
      simp only [LineageCollection.add, UINT64_MOD, UINT32_MOD]
      congr 1
      omega

/-- C8, as stated, fails for a sequence of 4294967297 `add` calls on `freshCollection`:
the first call and the last call are distinct calls and both return the id 1. -/
theorem addAll_fresh_counterexample :
    (0 : Nat) ≠ 4294967296 ∧
    (freshCollection.addAll (List.replicate 4294967297 saturatedNode))[0]? = some 1 ∧
    (freshCollection.addAll (List.replicate 4294967297 saturatedNode))[4294967296]? = some 1 := by
  have hlen : (List.replicate 4294967297 saturatedNode).length = 4294967297 :=
    List.length_replicate _ _
  refine ⟨by decide, ?_, ?_⟩
  · rw [addAll_getElem? _ _ 0 (by rw [hlen]; decide)]
    decide
  · rw [addAll_getElem? _ _ 4294967296 (by rw [hlen]; decide)]
    decide

/-- C8, amended. In every sequence of `add` calls on one registry, two distinct calls
that are fewer than 4294967296 calls apart return different ids. -/
theorem addAll_fresh_within_window (c : LineageCollection) (ns : List LineagePropertiesBase)
    (i j : Nat) (hij : i < j) (hj : j < ns.length) (hWindow : j - i < UINT32_MOD) :
    (c.addAll ns)[i]? ≠ (c.addAll ns)[j]? := by
  rw [addAll_getElem? c ns i (by omega), addAll_getElem? c ns j hj]
  simp only [UINT64_MOD, UINT32_MOD] at *
  intro h
  have h2 := Option.some.inj h
  omega

/-- Witness of the amended C8: three calls on `freshCollection`, the first against the
third. -/
theorem addAll_fresh_within_window_witness :
    (0 : Nat) < 2 ∧ 2 < [saturatedNode, saturatedNode, saturatedNode].length ∧
    2 - 0 < UINT32_MOD ∧
    (freshCollection.addAll [saturatedNode, saturatedNode, saturatedNode])[0]? ≠
      (freshCollection.addAll [saturatedNode, saturatedNode, saturatedNode])[2]? :=
  ⟨by decide, by decide, by decide,
    addAll_fresh_within_window freshCollection [saturatedNode, saturatedNode, saturatedNode]
      0 2 (by decide) (by decide) (by decide)⟩

/-- C9, as stated, fails at `freshCollection` and the base of `unobservedNode`: `add`
returns the id 1 while the node's id field is still 7 after the call. -/
theorem add_registers_counterexample :
    (freshCollection.add unobservedNode.toLineagePropertiesBase).1 = 1 ∧
    (freshCollection.add unobservedNode.toLineagePropertiesBase).2.2.id = 7 ∧
    (freshCollection.add unobservedNode.toLineagePropertiesBase).2.2.id ≠
      (freshCollection.add unobservedNode.toLineagePropertiesBase).1 := by
  decide

/-- C9, amended. `add(node)` increments the registry's counter and returns the new
counter value reduced to 32 bits; it leaves the node as it was (its id field is not
written) and changes nothing of the registry but the counter. -/
theorem add_returns_counter_only (c : LineageCollection) (node : LineagePropertiesBase) :
    (c.add node).1 = (c.counter + 1) % UINT64_MOD % UINT32_MOD ∧
    (c.add node).2.1 = { sampling := c.sampling, counter := (c.counter + 1) % UINT64_MOD } ∧
    (c.add node).2.2 = node := by
  exact ⟨rfl, rfl, rfl⟩

/-! ## Destruction of heap-resident nodes, construction of nodes -/

/-- C11, as stated, fails at `idleHeapNode` (`onHeap` true, reference count 0):
destroying it issues no `remove` at all, in particular none for the node's id. -/
theorem destructor_idle_heap_counterexample :
    idleHeapNode.onHeap = true ∧ idleHeapNode.refCount = 0 ∧
    Effect.remove idleHeapNode.id ∉ idleHeapNode.destructor ∧
    idleHeapNode.destructor.countP Effect.isRemove = 0 := by
  decide

/-- C11, amended. Destroying a node issues a Registry `remove` exactly when the node
is stack-resident (`onHeap` false) with reference count 0, and then for the node's own
id; destroying a node whose `onHeap` flag is true issues no `remove`, also when its
reference count is 0. -/
theorem destructor_remove_iff_stack_unobserved {M : Type} (self : LineageProperties M)
    (id : Nat) :
    Effect.remove id ∈ self.destructor ↔
      (id = self.id ∧ self.onHeap = false ∧ self.refCount = 0) := by
  unfold LineageProperties.destructor
  cases hHeap : self.onHeap with
  | true => simp
  | false =>
    by_cases hRef : self.refCount = 0
    · simp [hRef]
    · have hPos : 0 < self.refCount := Nat.pos_of_ne_zero hRef
      simp [hRef, hPos]

/-- C12. Constructing a node in `usedStorage`, storage whose `refCount` bytes hold 5,
gives a node with `onHeap` false and a reference count of 5, not 0: only `onHeap` has
an initialiser. -/
theorem ctor_leaves_refCount_uninitialised :
    (LineagePropertiesBase.ctor usedStorage).onHeap = false ∧
    (LineagePropertiesBase.ctor usedStorage).refCount = 5 ∧
    (LineagePropertiesBase.ctor usedStorage).refCount ≠ 0 := by
  decide

/-! ## Capture and the sampling flag -/

/-- C13, as stated, fails at `freshCollection` (sampling disabled) and
`unobservedNode`: the handle captured is not the empty handle (it holds the id 7), the
reference count goes from 0 to 1, and destroying the node afterwards takes the
promotion branch. -/
theorem capture_sampling_off_counterexample :
    freshCollection.sampling = false ∧
    (LineagePropertiesPtr.capture freshCollection 64
        unobservedNode.toLineagePropertiesBase).1 ≠ { ptr := none, id := 0 } ∧
    (LineagePropertiesPtr.capture freshCollection 64
        unobservedNode.toLineagePropertiesBase).2.2.refCount ≠ unobservedNode.refCount ∧
    (unobservedNode.afterCapture 64).destructor =
      [Effect.alloc { onHeap := false, refCount := 1, id := 7, members := 3 },
       Effect.move 7 { onHeap := false, refCount := 1, id := 7, members := 3 }] := by
  decide

/-- C13, amended. Capturing a handle does not consult the sampling flag. With sampling
disabled, capturing a handle on a stack-resident node whose reference count is below
the largest value of `unsigned` returns a handle with a null raw pointer and the
node's id, leaves the registry as it is and makes the reference count one larger, so
that destroying the node afterwards takes the promotion branch. -/
theorem capture_sampling_off_still_counts {M : Type} (collection : LineageCollection)
    (addr : Nat) (self : LineageProperties M) (hOff : collection.sampling = false)
    (hStack : self.onHeap = false) (hRoom : self.refCount + 1 < UNSIGNED_MOD) :
    (LineagePropertiesPtr.capture collection addr self.toLineagePropertiesBase).1 =
      { ptr := none, id := self.id } ∧
    (LineagePropertiesPtr.capture collection addr self.toLineagePropertiesBase).2.1.sampling =
      false ∧
    (LineagePropertiesPtr.capture collection addr self.toLineagePropertiesBase).2.1 =
      collection ∧
    (LineagePropertiesPtr.capture collection addr self.toLineagePropertiesBase).2.2 =
      (self.afterCapture addr).toLineagePropertiesBase ∧
    (self.afterCapture addr).refCount = self.refCount + 1 ∧
    ∃ n : LineageProperties M,
      (self.afterCapture addr).destructor = [Effect.alloc n, Effect.move self.id n] := by
  have hCount : (self.afterCapture addr).refCount = self.refCount + 1 := by
    simp only [LineageProperties.afterCapture, LineagePropertiesPtr.ctor]
    exact Nat.mod_eq_of_lt hRoom
  have hFlag : (self.afterCapture addr).onHeap = false := hStack
  have hId : (self.afterCapture addr).id = self.id := rfl
  refine ⟨?_, hOff, rfl, rfl, hCount, (self.afterCapture addr).copy, ?_⟩
  · simp [LineagePropertiesPtr.capture, LineagePropertiesPtr.ctor, hStack]
  · simp [LineageProperties.destructor, hFlag, hCount, hId]

/-- Witness of the amended C13 at `freshCollection` and `unobservedNode`. -/
theorem capture_sampling_off_still_counts_witness :
    freshCollection.sampling = false ∧ unobservedNode.onHeap = false ∧
    unobservedNode.refCount + 1 < UNSIGNED_MOD ∧
    (LineagePropertiesPtr.capture freshCollection 64
        unobservedNode.toLineagePropertiesBase).1 = { ptr := none, id := 7 } ∧
    (unobservedNode.afterCapture 64).refCount = 1 :=
  ⟨rfl, rfl, by decide,
    (capture_sampling_off_still_counts freshCollection 64 unobservedNode rfl rfl
      (by decide)).1,
    (capture_sampling_off_still_counts freshCollection 64 unobservedNode rfl rfl
      (by decide)).2.2.2.2.1⟩

/-! ## Role lineage -/

/-- C14. For every bag, `isSet(&RoleLineage::role)` is true if and only if the role of
the bag differs from `NoRole`. -/
theorem isSet_role_iff (b : RoleLineage) :
    b.isSet RoleLineageMember.role = true ↔ b.role ≠ ClusterRole.NoRole := by
  simp [RoleLineage.isSet, RoleLineage.deref]

/-- C15. For every role and every body, `runInRole` starts the body on a chain that
consists of one fresh root whose role is the given role, so `isSet(role)` holds on it
for every role but `NoRole`, and `runInRole` yields exactly what the body yields. -/
theorem runInRole_tags_root_returns_body {α ε : Type}
    (body : List RoleLineage → Except ε α × List RoleLineage) (role : ClusterRole)
    (currentLineage : List RoleLineage) :
    ∃ root : RoleLineage,
      modify (makeRoot currentLineage) RoleLineageMember.role role = [root] ∧
      root.role = role ∧
      root.isSet RoleLineageMember.role = decide (role ≠ ClusterRole.NoRole) ∧
      runInRole body role currentLineage = body [root] ∧
      (runInRole body role currentLineage).1 = (body [root]).1 := by
  have hRun : runInRole body role currentLineage = body [{ role := role }] := by
    simp only [runInRole, makeRoot, modify, RoleLineage.assign, RoleLineage.ctor]
    cases h : (body [{ role := role }]).1 <;> simp [← h]
  refine ⟨{ role := role }, rfl, rfl, ?_, hRun, by rw [hRun]⟩
  by_cases h : role = ClusterRole.NoRole <;> simp [RoleLineage.isSet, RoleLineage.deref, h]

/-- An instance of `runInRole`: a body that reports the role it sees, run in the role
`StorageServer` on a chain left by an earlier task entry. -/
theorem runInRole_reportRole_example :
    runInRole reportRole ClusterRole.StorageServer [{ role := ClusterRole.Coordinator }] =
      (Except.ok ClusterRole.StorageServer, [{ role := ClusterRole.StorageServer }]) := by
  rfl

/-- C18. A default-constructed `RoleLineage` has the role `NoRole`, and
`isSet(&RoleLineage::role)` is false on it. -/
theorem ctor_role_unset :
    RoleLineage.ctor.role = ClusterRole.NoRole ∧
    RoleLineage.ctor.isSet RoleLineageMember.role = false := by
  exact ⟨rfl, rfl⟩

/-! ## What the handle constructor stores and leaves -/

/-- C16. The handle constructed from a node holds a non-null raw pointer if and only
if the node's `onHeap` flag is true, and then the pointer is the node's address; the
handle constructed from a stack-resident node holds the null pointer. -/
theorem ctor_ptr_iff_onHeap (addr : Nat) (target : LineagePropertiesBase) :
    ((LineagePropertiesPtr.ctor addr target).1.ptr ≠ none ↔ target.onHeap = true) ∧
    (LineagePropertiesPtr.ctor addr target).1.ptr =
      (if target.onHeap then some addr else none) := by
  cases h : target.onHeap <;> simp [LineagePropertiesPtr.ctor, h]

/-- C17. Constructing a handle from a node changes nothing of the node but the
reference count: `onHeap`, `id` and the members are what they were. -/
theorem ctor_changes_refCount_only {M : Type} (addr : Nat) (self : LineageProperties M) :
    (self.afterCapture addr).onHeap = self.onHeap ∧
    (self.afterCapture addr).id = self.id ∧
    (self.afterCapture addr).members = self.members ∧
    (LineagePropertiesPtr.ctor addr self.toLineagePropertiesBase).2 =
      { onHeap := self.onHeap,
        refCount := (LineagePropertiesPtr.ctor addr self.toLineagePropertiesBase).2.refCount,
        id := self.id } := by
  exact ⟨rfl, rfl, rfl, rfl⟩

end Lineage
